import Mathlib

/-!
Verification of the core control loop of the `autoReply` Vencord plugin
(history assembly, provider dispatch, reply splitting, debounce gate).

The embedding follows `src/autoReply/index.tsx` (the current plugin source),
with `src/autoReply.tsx` as an earlier copy of the same functions and
`src/unnamed/part_000` holding the main-process variant `makeAIRequest`.

Modelling conventions:
- JavaScript strings are Lean `String`s; the JS whitespace class `\s` and
  `String.prototype.trim` are reproduced as `jsWhitespace` / `jsTrim`.
- A missing or empty author id (`!message?.message?.author?.id`) is
  modelled as the empty string.
- `ChatHistory.parts` is always the singleton `[{ text }]` in the source
  (built as `[{ text: ... }]`, read as `parts[0].text`), so it is
  flattened to a single `text` field.
- Network effects are modelled by an oracle `Network` passed in, and every
  call that reaches the HTTP/SDK layer is recorded in a request trace, so
  "zero network calls" is the trace being `[]`.
- Thrown JS exceptions are `Except.error`; the UI alert side effects
  (CSP dialogs, error alerts) do not change the data flow and are only
  tracked where a claim needs them (`errorAlert`).
-/

set_option autoImplicit false

namespace AutoReply

/-- JS `\s` character class (the characters matched by `\s` and trimmed by
`String.prototype.trim`). -/
def jsWhitespace (c : Char) : Bool :=
  c = ' ' || c = '\t' || c = '\n' || c = '\r' || c = '\x0b' || c = '\x0c' ||
  c.val = 0x00A0 || c.val = 0x1680 || (0x2000 ≤ c.val && c.val ≤ 0x200A) ||
  c.val = 0x2028 || c.val = 0x2029 || c.val = 0x202F || c.val = 0x205F ||
  c.val = 0x3000 || c.val = 0xFEFF

/-- JS `String.prototype.trim` on a character list. -/
def jsTrimList (l : List Char) : List Char :=
  ((l.dropWhile jsWhitespace).reverse.dropWhile jsWhitespace).reverse

/-- JS `String.prototype.trim`. -/
def jsTrim (s : String) : String :=
  String.mk (jsTrimList s.toList)

/-- JS `Array.prototype.slice(-n)` (note `slice(-0)` is `slice(0)`, the
whole array). -/
def sliceLast {α : Type} (n : Nat) (l : List α) : List α :=
  if n = 0 then l else l.drop (l.length - n)

/-- The role tag of a conversation turn (`"user" | "model"` in the source). -/
inductive Role where
  | user
  | model
deriving DecidableEq, Repr

/-- One conversation turn (`ChatHistory` in the source, with the singleton
`parts` list flattened to its one `text`). -/
structure ChatHistory where
  role : Role
  text : String
deriving DecidableEq, Repr

/-- A stored channel message, reduced to the fields `getMessageHistory`
reads (`msg.author.id` and `msg.content`). -/
structure Message where
  authorId : String
  content : String
deriving DecidableEq, Repr

/-- The plugin settings store (`definePluginSettings`), reduced to the
fields the core loop reads. -/
structure Settings where
  enabled : Bool
  aiProvider : String
  model : String
  apiKey : String
  cooldown : Nat
  customInstructions : String
  historyLength : Nat
  showTyping : Bool
deriving DecidableEq, Repr

/-- `msg => ({ role: msg.author.id === selfId ? "model" : "user",
parts: [{ text: msg.content }] })` — the map step of `getMessageHistory`. -/
def toTurn (selfId : String) (msg : Message) : ChatHistory :=
  { role := if msg.authorId == selfId then Role.model else Role.user,
    text := msg.content }

/-- The window fetch, map and empty-turn filter of `getMessageHistory`
(index.tsx lines 348–357): last `historyLength` messages, mapped to turns,
with turns whose trimmed text is empty removed. -/
def assembledWindow (historyLength : Nat) (selfId : String)
    (msgs : List Message) : List ChatHistory :=
  ((sliceLast historyLength msgs).map (toTurn selfId)).filter
    (fun t => !(jsTrim t.text == ""))

/-- `getMessageHistory` (index.tsx lines 347–360). After the filter the
source runs `if (msgdict[0].role === "model") msgdict[0].role = "user"`;
on an empty `msgdict` the access `msgdict[0].role` is a property read on
`undefined` and throws a `TypeError`, modelled as `Except.error`. -/
def getMessageHistory (historyLength : Nat) (selfId : String)
    (msgs : List Message) : Except String (List ChatHistory) :=
  match assembledWindow historyLength selfId msgs with
  | [] => Except.error "TypeError: cannot read properties of undefined"
  | f :: rest =>
      Except.ok ((if f.role = Role.model then { f with role := Role.user }
                  else f) :: rest)

/-! ### Reply splitter (the regex `/\n\s*\n+/` of `handleMessage`) -/

/-- Index of the last `'\n'` in a character list, if any. -/
def lastNewlineIdx : List Char → Option Nat
  | [] => none
  | c :: rest =>
      match lastNewlineIdx rest with
      | some j => some (j + 1)
      | none => if c = '\n' then some 0 else none

/-- Length of the (greedy, maximal) match of the JS regex `/\n\s*\n+/`
anchored at the head of `l`, if it matches there: a `'\n'`, then
whitespace, ending at the last `'\n'` reachable through whitespace. -/
def blankMatchLen (l : List Char) : Option Nat :=
  match l with
  | [] => none
  | c :: rest =>
      if c = '\n' then
        match lastNewlineIdx (rest.takeWhile jsWhitespace) with
        | some j => some (j + 2)
        | none => none
      else none

/-- `reply.split(/\n\s*\n+/)` on character lists: scan left to right,
cutting at each leftmost greedy match. `acc` holds the current segment
reversed. `fuel` only makes the recursion structural: every step consumes
at least one character, so starting the scan with `fuel = l.length` never
reaches the `fuel = 0` fallback. -/
def splitBlankGo (fuel : Nat) (acc l : List Char) : List (List Char) :=
  match fuel with
  | 0 => [acc.reverse ++ l]
  | fuel + 1 =>
      match l with
      | [] => [acc.reverse]
      | c :: rest =>
          match blankMatchLen (c :: rest) with
          | some n => acc.reverse :: splitBlankGo fuel [] (rest.drop (n - 1))
          | none => splitBlankGo fuel (c :: acc) rest

/-- `reply.split(/\n\s*\n+/)`. -/
def splitBlank (s : String) : List String :=
  (splitBlankGo s.toList.length [] s.toList).map String.mk

/-- `/\n\s*\n+/.test(reply)`: the regex matches somewhere in `l`. -/
def hasBlankSep : List Char → Bool
  | [] => false
  | c :: rest => (blankMatchLen (c :: rest)).isSome || hasBlankSep rest

/-- The contents of the outbound messages `handleMessage` sends for a
generated `reply` (index.tsx lines 584–609): if the blank-line regex
matches, each non-empty-trim part of the split, in order (parts with
empty trim are skipped by `continue`); otherwise the whole reply as one
message. -/
def sendContents (reply : String) : List String :=
  if hasBlankSep reply.toList then
    (splitBlank reply).filter (fun p => !(jsTrim p == ""))
  else
    [reply]

/-! ### Provider adapter (`makeAICall`, `makeAIRequest`) -/

/-- One message of an OpenAI-compatible request body (`{ role, content }`). -/
structure OAMessage where
  role : String
  content : String
deriving DecidableEq, Repr

/-- A call that reaches the HTTP/SDK layer: either the Gemini SDK chat
(`startChat` seeded with the history, then `sendMessage`), or the JSON POST
of the OpenAI-compatible path. The fixed sampling constants (temperature
0.9, topK 40, topP 0.95, max_tokens 1000) are literals in the source and
carry no information, so they are not repeated in the trace. -/
inductive NetRequest where
  | geminiChat (apiKey model : String) (history : List ChatHistory)
      (message : String)
  | httpPost (endpoint bearer model : String) (messages : List OAMessage)
deriving DecidableEq, Repr

/-- What the response layer returns to an OpenAI-compatible `fetch`
(`response.ok`, `response.statusText`, `data.choices[0].message.content`). -/
structure HttpResponse where
  ok : Bool
  statusText : String
  content : String
deriving DecidableEq, Repr

/-- The network oracle: the behaviour of the Gemini SDK and of `fetch`.
`Except.error` is a thrown exception (network failure, CSP block, ...). -/
structure Network where
  gemini : String → String → List ChatHistory → String → Except String String
  http : String → String → String → List OAMessage → Except String HttpResponse

/-- Serialisation of a stored role into the request body. -/
def roleString : Role → String
  | Role.user => "user"
  | Role.model => "model"

/-- The `messages` array of the OpenAI-compatible body: stored turns with
`"model"` renamed to `"assistant"` only for deepseek (openai receives
`"model"` verbatim), then the new user turn. -/
def oaMessages (provider : String) (history : List ChatHistory)
    (message : String) : List OAMessage :=
  history.map (fun msg =>
    { role := if provider == "deepseek" && msg.role == Role.model
              then "assistant" else roleString msg.role,
      content := msg.text }) ++ [{ role := "user", content := message }]

/-- The completions endpoint for the OpenAI-compatible path. -/
def oaEndpoint (provider : String) : String :=
  if provider == "deepseek" then "https://api.deepseek.com/v1/chat/completions"
  else "https://api.openai.com/v1/chat/completions"

/-- `model || default` — the JS fallback on a falsy (empty) model name. -/
def modelOr (model dflt : String) : String :=
  if model == "" then dflt else model

/-- `makeAICall` (index.tsx lines 362–446). Returns the result together
with the trace of calls that reached the HTTP/SDK layer. The `catch`
block of the source only pattern-matches the error message to show a CSP
alert and then rethrows the same error, so it does not change the value.
For an unknown provider the source logs and returns `""` — a successful
empty string, not an error. -/
def makeAICall (cfg : Settings) (net : Network) (history : List ChatHistory)
    (message : String) : Except String String × List NetRequest :=
  if cfg.apiKey == "" then
    (Except.error "API key is required", [])
  else if cfg.aiProvider == "gemini" then
    let modelName := modelOr cfg.model "gemini-2.5-pro"
    let req := NetRequest.geminiChat cfg.apiKey modelName history message
    match net.gemini cfg.apiKey modelName history message with
    | Except.ok t => (Except.ok t, [req])
    | Except.error e => (Except.error e, [req])
  else if cfg.aiProvider == "deepseek" || cfg.aiProvider == "openai" then
    let endpoint := oaEndpoint cfg.aiProvider
    let modelName := modelOr cfg.model
      (if cfg.aiProvider == "deepseek" then "deepseek-chat" else "gpt-3.5-turbo")
    let msgs := oaMessages cfg.aiProvider history message
    let req := NetRequest.httpPost endpoint cfg.apiKey modelName msgs
    match net.http endpoint cfg.apiKey modelName msgs with
    | Except.error e => (Except.error e, [req])
    | Except.ok r =>
        if !r.ok then (Except.error ("API request failed: " ++ r.statusText), [req])
        else (Except.ok r.content, [req])
  else
    (Except.ok "", [])

/-- `makeAIRequest` (src/unnamed/part_000 lines 18–79), the main-process
variant: no credential check, `{ success: false, error }` instead of a
throw (its `catch` converts any thrown error to `String(error)`), and an
explicit `"Unknown provider"` error for an unknown provider. -/
def makeAIRequest (net : Network) (provider apiKey model : String)
    (history : List ChatHistory) (message : String) :
    Except String String × List NetRequest :=
  if provider == "gemini" then
    let modelName := modelOr model "gemini-2.5-pro"
    let req := NetRequest.geminiChat apiKey modelName history message
    match net.gemini apiKey modelName history message with
    | Except.ok t => (Except.ok t, [req])
    | Except.error e => (Except.error e, [req])
  else if provider == "deepseek" || provider == "openai" then
    let endpoint := oaEndpoint provider
    let modelName := modelOr model
      (if provider == "deepseek" then "deepseek-chat" else "gpt-3.5-turbo")
    let msgs := oaMessages provider history message
    let req := NetRequest.httpPost endpoint apiKey modelName msgs
    match net.http endpoint apiKey modelName msgs with
    | Except.error e => (Except.error e, [req])
    | Except.ok r =>
        if !r.ok then (Except.error ("API request failed: " ++ r.statusText), [req])
        else (Except.ok r.content, [req])
  else
    (Except.error "Unknown provider", [])

/-- `generateReply` (index.tsx lines 448–467): reject an empty (post-trim)
trigger message, assemble the history, `pop()` its most recent turn,
append the custom-instructions turn as a final user turn, and dispatch.
Its `catch` logs and rethrows, so errors pass through unchanged. -/
def generateReply (cfg : Settings) (net : Network) (msgs : List Message)
    (selfId : String) (message : String) :
    Except String String × List NetRequest :=
  if jsTrim message == "" then
    (Except.error "Empty message content", [])
  else
    match getMessageHistory cfg.historyLength selfId msgs with
    | Except.error e => (Except.error e, [])
    | Except.ok history =>
        makeAICall cfg net
          (history.dropLast ++ [{ role := Role.user, text := cfg.customInstructions }])
          message

/-! ### Debounce/cooldown gate (`handleMessage`) -/

/-- The module-level mutable state the message handler reads and writes:
`isStarted` (armed toggle), `deBounce` (busy flag), `activeChannelId`
(set by `handleChannelSelect`, `null` initially), and the plugin object's
`hasShownError` rate-limit flag. -/
structure GateState where
  isStarted : Bool
  deBounce : Bool
  activeChannelId : Option String
  hasShownError : Bool
deriving DecidableEq, Repr

/-- A `MESSAGE_CREATE` event, reduced to the fields `handleMessage` reads
(`message.channelId`, `message.message.author.id`, `message.message.content`).
A missing author id is the empty string. -/
structure MessageEvent where
  channelId : String
  authorId : String
  content : String
deriving DecidableEq, Repr

/-- The entry guard of `handleMessage` (index.tsx lines 572–577): the
handler proceeds past the early `return` exactly when the plugin is
enabled, the author id is present and is not the local user, the event's
channel is the active channel, the loop is armed, and the busy flag is
clear. -/
def guardPasses (cfg : Settings) (st : GateState) (selfId : String)
    (ev : MessageEvent) : Bool :=
  cfg.enabled && !(ev.authorId == "") && !(ev.authorId == selfId) &&
  (st.activeChannelId == some ev.channelId) && st.isStarted && !st.deBounce

/-- Everything one execution of `handleMessage` does that the outside can
observe: the final mutable state, whether the guard passed (and so the
busy flag was set and a reply cycle started), the contents of the
outbound sends in order, the trace of HTTP/SDK calls, the cooldown delay
the `finally` block awaited (in ms, `none` when the guard returned
early), and whether the error alert was shown. -/
structure HandlerOutput where
  state : GateState
  cycleStarted : Bool
  sends : List String
  requests : List NetRequest
  cooldownMs : Option Nat
  errorAlert : Bool
deriving DecidableEq, Repr

/-- One execution of `handleMessage` (index.tsx lines 571–627) on the
messages currently stored for the event's channel. On a guard failure the
handler returns with no effect at all. Otherwise `deBounce` is set, the
cycle runs (`generateReply`, then either the multi-part send loop with
its early `return`, or the single send), errors are caught and — when the
rate-limit flag is clear — alerted; the `finally` block always awaits
`cooldown * 1000` ms and clears `deBounce`, on the success paths, the
early multi-part `return` and the error path alike. The pacing delays and
the typing indicator do not affect the data flow and are omitted. -/
def handleMessage (cfg : Settings) (st : GateState) (selfId : String)
    (channelMsgs : List Message) (net : Network) (ev : MessageEvent) :
    HandlerOutput :=
  if !(guardPasses cfg st selfId ev) then
    { state := st, cycleStarted := false, sends := [], requests := [],
      cooldownMs := none, errorAlert := false }
  else
    let stBusy : GateState := { st with deBounce := true }
    match generateReply cfg net channelMsgs selfId ev.content with
    | (Except.ok reply, reqs) =>
        { state := { stBusy with deBounce := false },
          cycleStarted := true,
          sends := sendContents reply,
          requests := reqs,
          cooldownMs := some (cfg.cooldown * 1000),
          errorAlert := false }
    | (Except.error _, reqs) =>
        { state := { stBusy with deBounce := false, hasShownError := true },
          cycleStarted := true,
          sends := [],
          requests := reqs,
          cooldownMs := some (cfg.cooldown * 1000),
          errorAlert := !st.hasShownError }

/-! ### Concrete fixtures used by witnesses and counterexamples -/

/-- A network oracle that fails every call; used where a path must not
reach the network at all. -/
def noNet : Network :=
  { gemini := fun _ _ _ _ => Except.error "unreachable",
    http := fun _ _ _ _ => Except.error "unreachable" }

/-- A settings store with the gemini provider and a configured key. -/
def cfgGemini : Settings :=
  { enabled := true, aiProvider := "gemini", model := "", apiKey := "k",
    cooldown := 5, customInstructions := "Mimic the style.",
    historyLength := 10, showTyping := true }

/-- `cfgGemini` with an unknown provider name. -/
def cfgUnknown : Settings := { cfgGemini with aiProvider := "llama" }

/-- `cfgGemini` with no credential configured. -/
def cfgNoKey : Settings := { cfgGemini with apiKey := "" }

/-- Gate state with the loop armed, channel "ch" focused, and an in-flight
cycle (`deBounce = true`). -/
def stBusy : GateState :=
  { isStarted := true, deBounce := true, activeChannelId := some "ch",
    hasShownError := false }

/-- Gate state with the loop armed, channel "ch" focused, and no cycle in
flight. -/
def stIdle : GateState := { stBusy with deBounce := false }

/-- A qualifying inbound event on the focused channel. -/
def evHello : MessageEvent :=
  { channelId := "ch", authorId := "alice", content := "hi" }

/-- An inbound event on the focused channel whose content is empty. -/
def evEmpty : MessageEvent := { evHello with content := "" }

/-! ### C1, C2, C9 — the debounce gate -/

/-- C1: while the busy flag (`deBounce`) is true, every further inbound
message event returns at the guard with no state change, no sends, no
network calls, no cooldown and no cycle started, so a second
generate-and-reply cycle can never start while one is in flight. -/
theorem busy_drops_inbound_events (cfg : Settings) (st : GateState)
    (selfId : String) (channelMsgs : List Message) (net : Network)
    (ev : MessageEvent) (h : st.deBounce = true) :
    handleMessage cfg st selfId channelMsgs net ev =
      { state := st, cycleStarted := false, sends := [], requests := [],
        cooldownMs := none, errorAlert := false } := by
  unfold handleMessage guardPasses
  simp [h]

/-- Witness for C1 at a concrete busy state and qualifying event. -/
theorem busy_drops_inbound_events_at :
    handleMessage cfgGemini stBusy "self" [] noNet evHello =
      { state := stBusy, cycleStarted := false, sends := [], requests := [],
        cooldownMs := none, errorAlert := false } :=
  busy_drops_inbound_events cfgGemini stBusy "self" [] noNet evHello rfl

/-- C2: every execution of `handleMessage` that sets the busy flag (i.e.
whose guard passed and whose cycle started) ends by running the cooldown
delay of `cooldown * 1000` ms and leaves `deBounce = false`; no
terminating execution leaves the busy flag stuck, whether the cycle
succeeded, returned early from the multi-part send path, or failed. -/
theorem cycle_always_releases_busy (cfg : Settings) (st : GateState)
    (selfId : String) (channelMsgs : List Message) (net : Network)
    (ev : MessageEvent)
    (h : (handleMessage cfg st selfId channelMsgs net ev).cycleStarted = true) :
    (handleMessage cfg st selfId channelMsgs net ev).state.deBounce = false ∧
    (handleMessage cfg st selfId channelMsgs net ev).cooldownMs
      = some (cfg.cooldown * 1000) := by
  unfold handleMessage at h ⊢
  by_cases hg : guardPasses cfg st selfId ev
  · rcases hr : generateReply cfg net channelMsgs selfId ev.content with ⟨res, reqs⟩
    cases res <;> simp [hg, hr]
  · simp [hg] at h

/-- Witness for C2: a started cycle (here one that fails inside
`generateReply` on an empty channel) still runs the cooldown and releases
the busy flag. -/
theorem cycle_always_releases_busy_at :
    (handleMessage cfgGemini stIdle "self" [] noNet evHello).state.deBounce = false ∧
    (handleMessage cfgGemini stIdle "self" [] noNet evHello).cooldownMs
      = some (cfgGemini.cooldown * 1000) :=
  cycle_always_releases_busy cfgGemini stIdle "self" [] noNet evHello (by decide)

/-- C9 counterexample: the guard does not inspect the message content, so
an inbound event with empty content (armed, focused channel, non-empty
foreign author) still flips the busy flag and starts a cycle — the cycle
then fails inside `generateReply` ("Empty message content") rather than
being rejected at the gate. -/
theorem empty_content_still_starts_cycle :
    (handleMessage cfgGemini stIdle "self" [] noNet evEmpty).cycleStarted = true ∧
    (handleMessage cfgGemini stIdle "self" [] noNet evEmpty).errorAlert = true := by
  decide

/-- C9 amended: the busy flag transitions `false → true` at the start of
handling exactly when the guard passes, and it passes only when the
plugin is enabled, the armed flag (`isStarted`) is true, the event's
channel equals the focused conversation, the author id is non-empty and
is not the local user, and no cycle was in flight; the content is not
examined by the gate. -/
theorem busy_set_only_when_guard_passes (cfg : Settings) (st : GateState)
    (selfId : String) (channelMsgs : List Message) (net : Network)
    (ev : MessageEvent)
    (h : (handleMessage cfg st selfId channelMsgs net ev).cycleStarted = true) :
    cfg.enabled = true ∧ ev.authorId ≠ "" ∧ ev.authorId ≠ selfId ∧
    st.activeChannelId = some ev.channelId ∧ st.isStarted = true ∧
    st.deBounce = false := by
  unfold handleMessage at h
  by_cases hg : guardPasses cfg st selfId ev
  · unfold guardPasses at hg
    simp only [Bool.and_eq_true, Bool.not_eq_true', beq_iff_eq,
      Bool.not_eq_eq_eq_not, Bool.not_true, beq_eq_false_iff_ne] at hg
    exact ⟨hg.1.1.1.1.1, hg.1.1.1.1.2, hg.1.1.1.2, hg.1.1.2, hg.1.2, hg.2⟩
  · simp [hg] at h

/-- Witness for the amended C9 at a concrete started cycle. -/
theorem busy_set_only_when_guard_passes_at :
    cfgGemini.enabled = true ∧ (evHello.authorId ≠ "") ∧
    (evHello.authorId ≠ "self") ∧
    stIdle.activeChannelId = some evHello.channelId ∧
    stIdle.isStarted = true ∧ stIdle.deBounce = false :=
  busy_set_only_when_guard_passes cfgGemini stIdle "self" [] noNet evHello
    (by decide)

/-! ### C3 — empty windows in `getMessageHistory` -/

/-- C3 (code bug): for a channel with an empty fetched window, and for a
window whose messages all trim to empty, `getMessageHistory` does not
return the empty sequence — after the filter leaves `msgdict` empty, the
leading-role fix reads `msgdict[0].role` on `undefined` and throws a
`TypeError`. -/
theorem getMessageHistory_throws_on_empty_window :
    getMessageHistory 10 "self" []
      = Except.error "TypeError: cannot read properties of undefined" ∧
    getMessageHistory 10 "self" [{ authorId := "alice", content := " \n " }]
      = Except.error "TypeError: cannot read properties of undefined" :=
  ⟨rfl, rfl⟩

/-! ### C4, C5 — provider dispatch failure modes -/

/-- C4 counterexample: with a configured credential and the unknown
provider "llama", `makeAICall` does not return an "unknown provider"
error: it logs and returns the successful empty string. -/
theorem makeAICall_unknown_provider_returns_ok :
    makeAICall cfgUnknown noNet [] "hi" = (Except.ok "", []) :=
  rfl

/-- C4 amended: for a provider identifier other than gemini, deepseek and
openai, no network call is made and no unstructured failure is thrown,
but only the main-process `makeAIRequest` returns the explicit
"Unknown provider" error; the renderer's `makeAICall` (with a configured
credential — its absence is reported first) logs and returns the
successful empty string instead of an error. -/
theorem unknown_provider_fails_fast (cfg : Settings) (net : Network)
    (history : List ChatHistory) (message : String)
    (provider apiKey model : String)
    (h1 : cfg.aiProvider ≠ "gemini") (h2 : cfg.aiProvider ≠ "deepseek")
    (h3 : cfg.aiProvider ≠ "openai") (hk : cfg.apiKey ≠ "")
    (g1 : provider ≠ "gemini") (g2 : provider ≠ "deepseek")
    (g3 : provider ≠ "openai") :
    makeAICall cfg net history message = (Except.ok "", []) ∧
    makeAIRequest net provider apiKey model history message
      = (Except.error "Unknown provider", []) := by
  unfold makeAICall makeAIRequest
  simp [h1, h2, h3, hk, g1, g2, g3]

/-- Witness for the amended C4 at the concrete provider "llama". -/
theorem unknown_provider_fails_fast_at :
    makeAICall cfgUnknown noNet [] "hi" = (Except.ok "", []) ∧
    makeAIRequest noNet "llama" "k" "" [] "hi"
      = (Except.error "Unknown provider", []) :=
  unknown_provider_fails_fast cfgUnknown noNet [] "hi" "llama" "k" ""
    (by decide) (by decide) (by decide) (by decide) (by decide) (by decide)
    (by decide)

/-- C5: with an empty configured credential, `makeAICall` throws
"API key is required" before any branch runs, for every provider
selection, history and message — the request trace is empty, so zero
calls reach the HTTP/SDK layer. -/
theorem missing_credential_no_network (cfg : Settings) (net : Network)
    (history : List ChatHistory) (message : String) (hk : cfg.apiKey = "") :
    makeAICall cfg net history message
      = (Except.error "API key is required", []) := by
  unfold makeAICall
  simp [hk]

/-- Witness for C5 at a concrete keyless configuration. -/
theorem missing_credential_no_network_at :
    makeAICall cfgNoKey noNet [] "hi"
      = (Except.error "API key is required", []) :=
  missing_credential_no_network cfgNoKey noNet [] "hi" rfl

/-! ### C6, C7 — assembly invariants -/

/-- C6: when the filtered window starts with a model-origin (assistant)
turn, `getMessageHistory` rewrites exactly that first turn's role to
user, keeping its text and every later turn unchanged; when the first
turn is already user-origin the whole window passes through unchanged. -/
theorem leading_assistant_role_rewritten (n : Nat) (selfId : String)
    (msgs : List Message) (f : ChatHistory) (rest : List ChatHistory)
    (h : assembledWindow n selfId msgs = f :: rest) :
    (f.role = Role.model →
      getMessageHistory n selfId msgs
        = Except.ok ({ role := Role.user, text := f.text } :: rest)) ∧
    (f.role = Role.user →
      getMessageHistory n selfId msgs = Except.ok (f :: rest)) := by
  unfold getMessageHistory
  rw [h]
  constructor
  · intro hf
    simp [hf]
  · intro hf
    simp [hf]

/-- Witness for C6: a window whose first kept turn is model-origin. -/
theorem leading_assistant_role_rewritten_at :
    getMessageHistory 10 "self"
        [{ authorId := "self", content := "hi" },
         { authorId := "bob", content := "yo" }]
      = Except.ok [{ role := Role.user, text := "hi" },
                   { role := Role.user, text := "yo" }] :=
  (leading_assistant_role_rewritten 10 "self"
      [{ authorId := "self", content := "hi" },
       { authorId := "bob", content := "yo" }]
      { role := Role.model, text := "hi" }
      [{ role := Role.user, text := "yo" }] (by decide)).1 rfl

/-- The texts surviving the map-and-filter pipeline are exactly the
non-empty-trim message contents, in order. -/
theorem map_toTurn_filter_text (selfId : String) (l : List Message) :
    ((l.map (toTurn selfId)).filter (fun t => !(jsTrim t.text == ""))).map
        (fun t => t.text)
      = (l.map (fun m => m.content)).filter (fun t => !(jsTrim t == "")) := by
  induction l with
  | nil => rfl
  | cons m ms ih =>
      by_cases hm : jsTrim m.content = ""
      · simp [toTurn, hm, ih]
      · simp [toTurn, hm, ih]

/-- C7: whenever `getMessageHistory` returns a window, the texts of the
returned turns are exactly the contents of the fetched window whose trim
is non-empty, in the fetched order — the filter removes exactly the
empty-trim turns and never reorders the rest. -/
theorem empty_turns_removed_in_order (n : Nat) (selfId : String)
    (msgs : List Message) (out : List ChatHistory)
    (h : getMessageHistory n selfId msgs = Except.ok out) :
    out.map (fun t => t.text)
      = ((sliceLast n msgs).map (fun m => m.content)).filter
          (fun t => !(jsTrim t == "")) := by
  have key : (assembledWindow n selfId msgs).map (fun t => t.text)
      = ((sliceLast n msgs).map (fun m => m.content)).filter
          (fun t => !(jsTrim t == "")) :=
    map_toTurn_filter_text selfId (sliceLast n msgs)
  unfold getMessageHistory at h
  rcases hA : assembledWindow n selfId msgs with _ | ⟨f, rest⟩ <;> rw [hA] at h
  · simp at h
  · rw [hA] at key
    simp only [Except.ok.injEq] at h
    rw [← h, ← key]
    by_cases hf : f.role = Role.model
    · simp [hf]
    · simp [hf]

/-- Witness for C7 at a window with one empty-trim message. -/
theorem empty_turns_removed_in_order_at :
    ([{ role := Role.user, text := "yo" }] : List ChatHistory).map
        (fun t => t.text)
      = ((sliceLast 10
            [({ authorId := "bob", content := "  " } : Message),
             { authorId := "bob", content := "yo" }]).map
          (fun m => m.content)).filter (fun t => !(jsTrim t == "")) :=
  empty_turns_removed_in_order 10 "self"
    [{ authorId := "bob", content := "  " }, { authorId := "bob", content := "yo" }]
    [{ role := Role.user, text := "yo" }] rfl

/-! ### C8 — the reply pacer/splitter -/

/-- C8: when the blank-line regex matches, `handleMessage` sends exactly
the non-empty (post-trim) parts of the split, in order, and when it does
not match it sends the whole reply as exactly one message; in particular
the reply with one blank-line separator produces exactly the two sends
"Hello there!" and "How are you?", and a one-line reply produces exactly
one send. -/
theorem splitter_sends_paragraphs :
    sendContents "Hello there!\n\nHow are you?"
        = ["Hello there!", "How are you?"] ∧
    sendContents "Just one line." = ["Just one line."] ∧
    (∀ r : String, hasBlankSep r.toList = false → sendContents r = [r]) ∧
    (∀ r : String, hasBlankSep r.toList = true →
      sendContents r = (splitBlank r).filter (fun p => !(jsTrim p == ""))) := by
  refine ⟨by decide, by decide, ?_, ?_⟩
  · intro r hr
    unfold sendContents
    rw [hr]
    simp
  · intro r hr
    unfold sendContents
    rw [hr]
    simp

/-- Witness for C8's one-message branch at a concrete separator-free
reply. -/
theorem splitter_sends_paragraphs_at :
    sendContents "abc" = ["abc"] :=
  splitter_sends_paragraphs.2.2.1 "abc" (by decide)

/-! ### C10 — what `generateReply` dispatches -/

/-- C10: whenever the trigger message is non-empty after trimming and the
assembler returns a window, `generateReply` dispatches to the provider
exactly that window with its most recent turn removed (`pop()`) and one
final user-role turn holding the custom instructions appended, passing
the trigger message as the separate message argument — the trigger enters
the dispatch only there, never inside the history. -/
theorem generateReply_dispatch (cfg : Settings) (net : Network)
    (msgs : List Message) (selfId message : String)
    (hist : List ChatHistory) (hm : jsTrim message ≠ "")
    (hh : getMessageHistory cfg.historyLength selfId msgs = Except.ok hist) :
    generateReply cfg net msgs selfId message
      = makeAICall cfg net
          (hist.dropLast
            ++ [{ role := Role.user, text := cfg.customInstructions }])
          message := by
  unfold generateReply
  simp [hm, hh]

/-- Witness for C10 at a concrete one-message window. -/
theorem generateReply_dispatch_at :
    generateReply cfgGemini noNet [{ authorId := "bob", content := "yo" }]
        "self" "hi"
      = makeAICall cfgGemini noNet
          (([{ role := Role.user, text := "yo" }] : List ChatHistory).dropLast
            ++ [{ role := Role.user, text := cfgGemini.customInstructions }])
          "hi" :=
  generateReply_dispatch cfgGemini noNet
    [{ authorId := "bob", content := "yo" }] "self" "hi"
    [{ role := Role.user, text := "yo" }] (by decide) rfl

end AutoReply
